import Mathlib

/-!
# Verification of the loop-pull-hi-cvs ingestion scripts

A shallow embedding of the candidate-ingestion scripts
(`daily_CV_and_candidate_importer.py`, `pull_and_link_cvs.py`,
`hi_cv_downloader.py`, `scrape_cv_links.py`, `multi_candidate_screenshot.py`,
`hi_candidate_screenshot_job.py`) together with proofs about their data
cleaning, upsert loop, CV-download request flow, exit codes, resource
cleanup and error recording.

External effects (HTTP responses, GCS uploads, database acknowledgements,
browser steps) are modelled as explicit oracle inputs; machine behaviour of
each script is a total Lean function of those oracles, translated
statement-by-statement from the Python source.
-/

namespace LoopPullHiCvs

/-- Python exceptions are carried as their rendered message (`str(e)`). -/
abbrev Exc := String

instance {ε α : Type} [DecidableEq ε] [DecidableEq α] : DecidableEq (Except ε α) :=
  fun a b =>
    match a, b with
    | .ok x, .ok y =>
        if h : x = y then .isTrue (by rw [h]) else .isFalse (by simp [h])
    | .error x, .error y =>
        if h : x = y then .isTrue (by rw [h]) else .isFalse (by simp [h])
    | .ok _, .error _ => .isFalse (by simp)
    | .error _, .ok _ => .isFalse (by simp)

/-- Python truthiness of an optional string (`None` and `""` are falsy). -/
def strTruthy : Option String → Bool
  | none => false
  | some s => s ≠ ""

/-- The whitespace characters `str.strip()` removes. -/
def isPySpace (c : Char) : Bool :=
  c = ' ' || c = '\t' || c = '\n' || c = '\r' || c = '\x0b' || c = '\x0c'

/-- Python `str.strip()`: drop leading and trailing whitespace. -/
def pyStrip (s : String) : String :=
  String.mk (((s.data.dropWhile isPySpace).reverse.dropWhile isPySpace).reverse)

/-- Python `str.lower()`: lowercase each character. -/
def pyLower (s : String) : String := String.mk (s.data.map Char.toLower)

/-- `.str.strip().str.lower()` applied to one cell. -/
def pyStripLower (s : String) : String := pyLower (pyStrip s)

/-! ## A fragment of Python surface syntax

`daily_CV_and_candidate_importer.py` fails to compile (claim C2), so the
relevant statement structure of that module is transcribed and checked
against the well-formedness rule of the Python grammar for `try`
statements. -/

/-- Statement skeleton of a Python module: only the nesting structure
needed to state the grammar rule for `try` is retained; every other
statement is kept as its source text. -/
inductive PyStmt where
  | simple (src : String)
  | withStmt (ctx : String) (body : List PyStmt)
  | tryStmt (body : List PyStmt) (handlers : List (String × List PyStmt))
      (finallyBody : Option (List PyStmt))
  | funcDef (nm : String) (body : List PyStmt)
  | classDef (nm : String) (body : List PyStmt)
deriving Inhabited

mutual

/-- Modelled from the Python grammar: a `try` statement must carry at least
one `except` clause or a `finally` clause; otherwise the module does not
parse (SyntaxError). All other retained forms are well-formed when their
bodies are. -/
def stmtWellFormed : PyStmt → Bool
  | .simple _ => true
  | .withStmt _ b => stmtsWellFormed b
  | .tryStmt b hs fin =>
      (!hs.isEmpty || fin.isSome) && stmtsWellFormed b && handlersWellFormed hs &&
        (match fin with
         | some fb => stmtsWellFormed fb
         | none => true)
  | .funcDef _ b => stmtsWellFormed b
  | .classDef _ b => stmtsWellFormed b

def stmtsWellFormed : List PyStmt → Bool
  | [] => true
  | s :: rest => stmtWellFormed s && stmtsWellFormed rest

def handlersWellFormed : List (String × List PyStmt) → Bool
  | [] => true
  | (_, b) :: rest => stmtsWellFormed b && handlersWellFormed rest

end

namespace DailyImporter

/-- Body of `create_candidates_table` (daily_CV_and_candidate_importer.py,
lines 123-163): the `create_sql` assignment followed by a `try:` whose body
is a `with` block, with no `except` clause and no `finally` clause — the
next line of the file opens `class CVDownloadTool` at column zero. -/
def create_candidates_table_body : List PyStmt :=
  [ .simple "create_sql = sqlalchemy.text(CREATE TABLE IF NOT EXISTS candidates_daily_report ...)",
    .tryStmt
      [ .withStmt "engine.connect() as connection"
          [ .simple "connection.execute(create_sql)",
            .simple "connection.commit()",
            .simple "logger.info(Verified or created table ...)" ] ]
      []
      none ]

/-- Top-level statement skeleton of `daily_CV_and_candidate_importer.py`.
Function and class bodies other than `create_candidates_table` are
syntactically unremarkable and kept as simple statements. -/
def importerModule : List PyStmt :=
  [ .simple "imports, DB_TABLE_NAME, CV_BUCKET_NAME, logging setup, clients, connector",
    .funcDef "get_project_id" [.simple "..."],
    .simple "GCP_PROJECT_ID = get_project_id()",
    .funcDef "get_secret" [.simple "..."],
    .funcDef "load_config" [.simple "..."],
    .funcDef "get_db_engine" [.simple "..."],
    .funcDef "create_candidates_table" create_candidates_table_body,
    .classDef "CVDownloadTool" [.simple "..."],
    .funcDef "upload_to_gcs" [.simple "..."],
    .funcDef "fetch_data_from_api" [.simple "..."],
    .funcDef "insert_candidate_data" [.simple "..."],
    .funcDef "main" [.simple "..."],
    .simple "if __name__ == __main__: main()" ]

/-- Outcome of invoking a script: its exit status and the trace of
externally visible effects it performed. -/
structure ScriptRun where
  exitCode : Nat
  effects : List String
deriving DecidableEq, Inhabited

/-- Modelled from the CPython startup behaviour: the interpreter first
compiles the whole module; if compilation fails (SyntaxError) it exits
with status 1 having executed nothing, and only otherwise runs the module
body (whose behaviour is supplied as `exec`). -/
def runPythonModule (module : List PyStmt) (exec : ScriptRun) : ScriptRun :=
  if stmtsWellFormed module then exec else ⟨1, []⟩

/-! ## The `candidates_daily_report` DDL (create_candidates_table) -/

/-- One column definition of the `CREATE TABLE` statement. -/
structure ColumnSpec where
  name : String
  sqlType : String
  notNull : Bool
  primaryKey : Bool
deriving DecidableEq

/-- The column list of the `CREATE TABLE IF NOT EXISTS candidates_daily_report`
statement (daily_CV_and_candidate_importer.py, lines 126-157), transcribed
column by column. `SERIAL PRIMARY KEY` is both NOT NULL and the primary
key; columns marked `NULL` in the source are nullable; `DEFAULT` clauses do
not affect the constraints modelled here. -/
def candidatesTableColumns : List ColumnSpec :=
  [ ⟨"id", "SERIAL", true, true⟩,
    ⟨"created_on", "TIMESTAMP", true, false⟩,
    ⟨"job_ref_number", "VARCHAR(255)", true, false⟩,
    ⟨"status_id", "INTEGER", false, false⟩,
    ⟨"app_status", "VARCHAR(255)", false, false⟩,
    ⟨"supplier_name", "VARCHAR(255)", false, false⟩,
    ⟨"job_title", "VARCHAR(255)", false, false⟩,
    ⟨"job_location", "VARCHAR(255)", false, false⟩,
    ⟨"user_id", "INTEGER", false, false⟩,
    ⟨"first_name", "VARCHAR(255)", false, false⟩,
    ⟨"last_name", "VARCHAR(255)", false, false⟩,
    ⟨"telephone_international_dialing_code", "VARCHAR(10)", false, false⟩,
    ⟨"telephone", "VARCHAR(255)", false, false⟩,
    ⟨"email", "VARCHAR(255)", true, false⟩,
    ⟨"buyer_name", "VARCHAR(255)", false, false⟩,
    ⟨"buyer_id", "INTEGER", false, false⟩,
    ⟨"cv_id", "INTEGER", false, false⟩,
    ⟨"interview", "BOOLEAN", false, false⟩,
    ⟨"hire", "BOOLEAN", false, false⟩,
    ⟨"rejected", "BOOLEAN", false, false⟩,
    ⟨"qualified", "BOOLEAN", false, false⟩,
    ⟨"note_id", "INTEGER", false, false⟩,
    ⟨"note", "TEXT", false, false⟩,
    ⟨"source_system", "VARCHAR(255)", true, false⟩,
    ⟨"etl_load_timestamp", "TIMESTAMP", false, false⟩,
    ⟨"cv_gcs_path", "VARCHAR(512)", false, false⟩,
    ⟨"cv_download_status", "VARCHAR(50)", false, false⟩,
    ⟨"email_sent_timestamp", "TIMESTAMP", false, false⟩,
    ⟨"email_status", "VARCHAR(50)", false, false⟩,
    ⟨"email_error_message", "TEXT", false, false⟩ ]

/-- An element of a Postgres conflict target / unique index: either a plain
column or `lower(column)`. -/
inductive IndexExpr where
  | col (name : String)
  | lowerCol (name : String)
deriving DecidableEq

/-- The uniqueness constraints the DDL of `candidates_daily_report`
declares: the statement has no table-level constraint and no `UNIQUE`
column constraint, so the only unique set is the `SERIAL PRIMARY KEY`
column `id`. -/
def candidatesTableUniqueKeys : List (List IndexExpr) :=
  (candidatesTableColumns.filter (·.primaryKey)).map (fun c => [IndexExpr.col c.name])

/-- The conflict target of the upsert in `insert_candidate_data`
(lines 439-444): `lower(email), lower(job_ref_number), created_on`. -/
def upsertConflictTarget : List IndexExpr :=
  [IndexExpr.lowerCol "email", IndexExpr.lowerCol "job_ref_number", IndexExpr.col "created_on"]

/-- A row of `candidates_daily_report`, restricted to the columns that
carry a constraint in the DDL (`id` from the primary key, the four
NOT NULL columns) plus the upsert-key columns. All remaining columns are
nullable and unconstrained, so they do not affect which row sets the
schema admits. -/
structure DbRow where
  id : Int
  created_on : Int
  job_ref_number : String
  email : String
  source_system : String
deriving DecidableEq

/-- The upsert-key triple of a stored row, as the `ON CONFLICT` clause
computes it: `(lower(email), lower(job_ref_number), created_on)`. -/
def DbRow.upsertKey (r : DbRow) : String × String × Int :=
  (pyLower r.email, pyLower r.job_ref_number, r.created_on)

/-- Whether a table state satisfies every constraint the DDL declares:
NOT NULL holds by construction of `DbRow`, and the only unique constraint
is the primary key on `id`, so distinct rows must have distinct ids. -/
def rowsSatisfySchema (rows : List DbRow) : Bool :=
  (rows.map (·.id)).Nodup

/-! ## Data cleaning and the upsert loop (insert_candidate_data) -/

/-- A candidate record as it leaves `fetch_data_from_api`, after the
`rename` at lines 303-326, restricted to the fields the cleaning steps of
`insert_candidate_data` treat specially. `none` is a pandas missing value
(`pd.NA`/`NaN`); `createdOn` is the result of
`pd.to_datetime(..., errors='coerce', utc=True)` in microseconds since the
epoch, `none` when the source value was missing or unparseable (`NaT`).
The columns that are only passed through (names, phone, flags, note, ...)
are carried opaquely in `rest`. -/
structure RawRecord where
  createdOn : Option Int
  jobRefNumber : Option String
  email : Option String
  rest : List (String × String)
deriving DecidableEq

/-- `replace({'': pd.NA})` on a string cell (line 375): the empty string
becomes missing; nothing else changes. -/
def naIfEmpty : Option String → Option String
  | none => none
  | some s => if s = "" then none else some s

/-- `astype(str)` on a cell of a pandas string column: a missing value is
rendered as the literal string `<NA>`; a string stays itself
(lines 379 and 382 apply this before `.str.strip().str.lower()`). -/
def pandasAsStr : Option String → String
  | none => "<NA>"
  | some s => s

/-- The full per-cell normalization the loader applies to `email` and
`job_ref_number` (lines 374-383): `''` → missing, `astype(str)`,
`.str.strip()`, `.str.lower()`. -/
def normCell (o : Option String) : String := pyStripLower (pandasAsStr (naIfEmpty o))

/-- `df_final['created_on'].dt.floor('S')` (line 399): floor a microsecond
timestamp to whole seconds (toward minus infinity, as pandas does). -/
def floorToSecond (t : Int) : Int := (Int.fdiv t 1000000) * 1000000

/-- A record after the cleaning steps of `insert_candidate_data`
(lines 374-411): `email` and `job_ref_number` are now plain strings,
`created_on` is still optional because `to_datetime(..., errors='coerce')`
may have produced `NaT`. -/
structure NormRecord where
  created_on : Option Int
  job_ref_number : String
  email : String
  rest : List (String × String)
deriving DecidableEq

/-- The per-record effect of lines 374-399: normalize `email` and
`job_ref_number`, floor `created_on` to seconds (when present). -/
def normalizeRecord (r : RawRecord) : NormRecord :=
  ⟨r.createdOn.map floorToSecond, normCell r.jobRefNumber, normCell r.email, r.rest⟩

/-- The cleaned record list `df_final` at line 430: apply the column
normalizations to every record, then `dropna(subset=['created_on'])`
(line 396). The subsequent `dropna` calls on `job_ref_number` (line 403)
and `email` (line 409) drop nothing, because after `astype(str)` those
columns contain no missing values. -/
def cleanRecords (raws : List RawRecord) : List NormRecord :=
  (raws.map normalizeRecord).filter (fun r => r.created_on.isSome)

/-- The columns of the `set_` clause of the upsert (lines 421-427). -/
def updateCols : List String :=
  [ "status_id", "app_status", "supplier_name", "job_title", "job_location",
    "user_id", "first_name", "last_name", "telephone_international_dialing_code",
    "telephone", "buyer_name", "buyer_id", "cv_id", "interview", "hire",
    "rejected", "qualified", "note_id", "note", "source_system",
    "cv_gcs_path", "cv_download_status" ]

/-- One parameterized `INSERT ... ON CONFLICT DO UPDATE` statement as the
loop at lines 437-447 builds it for one record. -/
structure UpsertStmt where
  table : String
  values : NormRecord
  indexElements : List IndexExpr
  setCols : List String
deriving DecidableEq

/-- The statement issued for one cleaned record (lines 438-446). -/
def upsertFor (r : NormRecord) : UpsertStmt :=
  ⟨"candidates_daily_report", r, upsertConflictTarget, updateCols⟩

/-- The sequence of SQL statements `insert_candidate_data` executes against
`candidates_daily_report`: one upsert per record of the cleaned frame, in
order (the `for record in records` loop at lines 437-447). -/
def insertStatements (raws : List RawRecord) : List UpsertStmt :=
  (cleanRecords raws).map upsertFor

end DailyImporter

/-! ## HTTP requests and their URLs -/

/-- An HTTPS URL split into host, path and query, rendered exactly as the
source writes it. -/
structure UrlParts where
  host : String
  path : String
  query : String
deriving DecidableEq

def UrlParts.render (u : UrlParts) : String := "https://" ++ u.host ++ u.path ++ u.query

/-- One HTTP request a script issues. -/
structure HttpReq where
  method : String
  url : UrlParts
deriving DecidableEq

namespace DailyImporter

/-- `auth_url` of `fetch_data_from_api` (line 219). -/
def authUrl : UrlParts := ⟨"partnersapi.applygateway.com", "/api/Login/login", ""⟩

/-- `report_url` of `fetch_data_from_api` (line 240); `requests.get` adds
the page/date parameters as the query string. -/
def reportUrl (q : String) : UrlParts :=
  ⟨"partnersapi.applygateway.com", "/api/Candidate/MultiCandidateAdmin", q⟩

/-- The URL `CVDownloadTool.get_cv_filename` builds at line 185:
`self.base_url` (line 167) plus `"/CandidateCombination?"` plus the
url-encoded parameters. -/
def candidateCombinationUrl (q : String) : UrlParts :=
  ⟨"partnersapi.applygateway.com", "/api/Candidate/CandidateCombination", "?" ++ q⟩

/-- The URL `CVDownloadTool.download_cv` builds at line 196:
`self.download_url` (line 168) plus the url-encoded `apiKey`/`fileName`
parameters. -/
def fileDownloadUrl (apiKey fileName : String) : UrlParts :=
  ⟨"cvfilemanager.applygateway.com", "/v1/cv/download",
    "?apiKey=" ++ apiKey ++ "&fileName=" ++ fileName⟩

/-- The metadata request of `get_cv_filename` (line 186). -/
def getCvFilenameRequest (q : String) : HttpReq := ⟨"GET", candidateCombinationUrl q⟩

/-- The file request of `download_cv` (line 197). -/
def fileDownloadRequest (apiKey fileName : String) : HttpReq :=
  ⟨"GET", fileDownloadUrl apiKey fileName⟩

/-! ## The per-row CV download section of insert_candidate_data
(lines 337-358) -/

/-- The `data` object of the CandidateCombination response as
`get_cv_filename` reads it (lines 188-189): `data.get("fileName")` and
`data.get("cvFileName")`, which yield `None` both for an absent key and a
JSON null. -/
structure CombinationData where
  fileName : Option String
  cvFileName : Option String
deriving DecidableEq

/-- Oracle for one iteration of the CV loop: the outcome of the metadata
request (an exception or the parsed `data` object), the outcome of the
file request, and the result of `upload_to_gcs` (which catches its own
exceptions and returns `None` on failure, lines 201-212). -/
structure CvRowOracle where
  meta : Except Exc CombinationData
  download : Except Exc Unit
  gcsPath : Option String
deriving DecidableEq

/-- Result of one iteration of the loop at lines 337-358: the HTTP
requests it issued and the `cv_gcs_path` / `cv_download_status` cells it
wrote back into the frame. -/
structure CvRowResult where
  requests : List HttpReq
  cv_gcs_path : Option String
  cv_download_status : String
deriving DecidableEq

/-- One iteration of the CV loop (lines 337-358), for a row with the given
`cv_id` and `user_id` cells; `q` is the url-encoded parameter string of
the metadata request. The body is a straight transcription: the
`pd.notna` guard, `get_cv_filename`, the `if file_name and cv_file_name`
guard, `download_cv`, `upload_to_gcs`, and the `except Exception` that
turns any raised error into a `Failed - {e}` status. -/
def processCvRow (apiKey q : String) (cv_id user_id : Option Int) (o : CvRowOracle) :
    CvRowResult :=
  match cv_id, user_id with
  | some _, some _ =>
    let req1 := getCvFilenameRequest q
    match o.meta with
    | .error e => ⟨[req1], none, "Failed - " ++ e⟩
    | .ok d =>
      if strTruthy d.fileName && strTruthy d.cvFileName then
        let req2 := fileDownloadRequest apiKey (d.fileName.getD "")
        match o.download with
        | .error e => ⟨[req1, req2], none, "Failed - " ++ e⟩
        | .ok _ =>
          match o.gcsPath with
          | some p => ⟨[req1, req2], some p, "Success"⟩
          | none => ⟨[req1, req2], none, "Failed"⟩
      else ⟨[req1], none, "Failed - No file name"⟩
  | _, _ => ⟨[], none, "Failed - Missing CV ID or User ID"⟩

/-- The whole CV loop over the frame (`for index, row in df.iterrows()`),
iterating from row index `i`: one `processCvRow` per row, in order; the
loop body never lets an exception escape, so every row is processed. -/
def processCvRowsAux (apiKey q : String) : List (Option Int × Option Int) → Nat →
    (Nat → CvRowOracle) → List CvRowResult
  | [], _, _ => []
  | row :: rest, i, oracles =>
      processCvRow apiKey q row.1 row.2 (oracles i) ::
        processCvRowsAux apiKey q rest (i + 1) oracles

/-- The CV loop over the whole frame, from index 0. -/
def processCvRows (apiKey q : String) (rows : List (Option Int × Option Int))
    (oracles : Nat → CvRowOracle) : List CvRowResult :=
  processCvRowsAux apiKey q rows 0 oracles

end DailyImporter

namespace HiCvDownloader

/-- A JSON leaf value as `download_cv` in hi_cv_downloader.py meets it:
null or a string. -/
inductive JVal where
  | jnull
  | jstr (s : String)
deriving DecidableEq

/-- Python f-string rendering of such a value: `None` renders as the
four-character string `None`. -/
def JVal.fstr : JVal → String
  | .jnull => "None"
  | .jstr s => s

/-- `d[k]` on a JSON object: the value when the key is present (even when
it is null), a KeyError otherwise. -/
def dictGetEx (d : List (String × JVal)) (k : String) : Except Exc JVal :=
  match d.find? (fun p => p.1 = k) with
  | some p => .ok p.2
  | none => .error ("KeyError: " ++ k)

/-- The CandidateCombination response body as `download_cv` reads it
(lines 317-324): `metadata.get("statusCode")`, and `metadata["data"]` as
an object (`none` when the `data` key is absent or null, in which case the
subscript raises and the outer `except` returns `None`). -/
structure CvMetadata where
  statusCode : Option JVal
  data : Option (List (String × JVal))
deriving DecidableEq

/-- The metadata URL built at line 309. -/
def hiMetadataUrl (q : String) : UrlParts :=
  ⟨"partnersapi.applygateway.com", "/api/Candidate/CandidateCombination", "?" ++ q⟩

/-- The download URL built at line 327 by f-string interpolation of the
API key and the file name. -/
def hiFileDownloadUrl (apiKey fileName : String) : UrlParts :=
  ⟨"cvfilemanager.applygateway.com", "/v1/cv/download",
    "?apiKey=" ++ apiKey ++ "&fileName=" ++ fileName⟩

def hiMetadataRequest (q : String) : HttpReq := ⟨"GET", hiMetadataUrl q⟩

def hiFileDownloadRequest (apiKey fileName : String) : HttpReq :=
  ⟨"GET", hiFileDownloadUrl apiKey fileName⟩

/-- The dictionary `download_cv` returns on success (lines 331-338),
restricted to the file name; the body bytes and the caller-supplied name
fields are opaque. -/
structure HiDownloadResult where
  file_name : JVal
deriving DecidableEq

/-- `download_cv` of hi_cv_downloader.py (lines 299-341), as a function of
the metadata-request outcome and of whether the file request raises.
Returns the requests issued (in order) and the result (`none` whenever the
outer `except Exception` caught something or the status check failed). -/
def hiDownloadCv (apiKey q : String) (resp1 : Except Exc CvMetadata) (resp2Fails : Bool) :
    List HttpReq × Option HiDownloadResult :=
  let req1 := hiMetadataRequest q
  match resp1 with
  | .error _ => ([req1], none)
  | .ok m =>
    if m.statusCode ≠ some (JVal.jstr "2000") then ([req1], none)
    else
      match m.data with
      | none => ([req1], none)
      | some d =>
        match dictGetEx d "fileName" with
        | .error _ => ([req1], none)
        | .ok fn =>
          match dictGetEx d "cvFileName" with
          | .error _ => ([req1], none)
          | .ok cfn =>
            let req2 := hiFileDownloadRequest apiKey fn.fstr
            if resp2Fails then ([req1, req2], none)
            else ([req1, req2], some ⟨cfn⟩)

end HiCvDownloader

namespace PullAndLinkCvs

/-- `auth_url` of `get_api_auth_token` (line 170). -/
def pullAuthUrl : UrlParts := ⟨"partnersapi.applygateway.com", "/api/Login/login", ""⟩

/-- `cv_url` of `download_cv_from_api` (line 199): an f-string with the
candidate's `cv_id`. -/
def pullDownloadCvUrl (cvId : Int) : UrlParts :=
  ⟨"partnersapi.applygateway.com", "/api/Candidate/DownloadCV", "?cvid=" ++ toString cvId⟩

end PullAndLinkCvs

/-- Every request any of the scripts issues against the partner API host
`partnersapi.applygateway.com`: the login POST (importer line 222 and
pull_and_link line 182), the paginated report GET (importer line 264),
the CandidateCombination metadata GET (importer line 186 and
hi_cv_downloader line 315), and the DownloadCV GET
(pull_and_link line 208). The `cvfilemanager.applygateway.com` file
requests are against a different host. -/
def partnerApiRequests : List HttpReq :=
  [ ⟨"POST", DailyImporter.authUrl⟩,
    ⟨"GET", DailyImporter.reportUrl ""⟩,
    ⟨"GET", DailyImporter.candidateCombinationUrl ""⟩,
    ⟨"POST", PullAndLinkCvs.pullAuthUrl⟩,
    ⟨"GET", PullAndLinkCvs.pullDownloadCvUrl 0⟩,
    ⟨"GET", HiCvDownloader.hiMetadataUrl ""⟩ ]

/-- The three paths the spec names for the partner API. -/
def specPartnerPaths : List String :=
  ["/api/Login/login", "/api/Candidate/MultiCandidateAdmin", "/api/Candidate/CandidateCombination"]

/-! ## Entrypoint control flow: exit codes and `finally` cleanup -/

/-- Cleanup actions the `finally` blocks of the entrypoints perform. -/
inductive CleanupEvent where
  | connectorClosed
  | engineDisposed
  | driverQuit
deriving DecidableEq

/-- Observable outcome of one run of an entrypoint: exit status, which
heavyweight resources were created along the way, and the cleanup actions
the `finally` block performed, in order. -/
structure MainRun where
  exitCode : Nat
  engineCreated : Bool
  driverCreated : Bool
  cleanup : List CleanupEvent
deriving DecidableEq

namespace DailyImporter

/-- Oracle for one run of `main` (lines 458-487): whether each step
returns or raises. `fetch_data_from_api` never raises (it catches every
exception and returns an empty frame), so only its emptiness matters. -/
structure ImporterEnv where
  configOk : Bool
  engineOk : Bool
  createTableOk : Bool
  fetchEmpty : Bool
  insertOk : Bool
deriving DecidableEq

/-- `main` of daily_CV_and_candidate_importer.py as written (lines
458-487), step by step. Any exception lands in the `except` that calls
`sys.exit(1)`; `sys.exit(0)` at line 470 raises SystemExit, which the
`except Exception` does not catch; in every case the `finally` closes the
module-global connector and, when `db_engine` was assigned, disposes it
(lines 481-487, in that order). -/
def importerMain (e : ImporterEnv) : MainRun :=
  if !e.configOk then ⟨1, false, false, [.connectorClosed]⟩
  else if !e.engineOk then ⟨1, false, false, [.connectorClosed]⟩
  else if !e.createTableOk then ⟨1, true, false, [.connectorClosed, .engineDisposed]⟩
  else if e.fetchEmpty then ⟨0, true, false, [.connectorClosed, .engineDisposed]⟩
  else if !e.insertOk then ⟨1, true, false, [.connectorClosed, .engineDisposed]⟩
  else ⟨0, true, false, [.connectorClosed, .engineDisposed]⟩

/-- The steps of `main` that must all succeed for the job's tasks to
complete (the empty fetch is the documented no-work completion). -/
def importerTasksComplete (e : ImporterEnv) : Bool :=
  e.configOk && e.engineOk && e.createTableOk && (e.fetchEmpty || e.insertOk)

end DailyImporter

namespace PullAndLinkCvs

/-- A stored row of `candidates_daily_report` as pull_and_link_cvs.py sees
it: the columns the selection query projects (line 267) together with the
two columns its WHERE clause reads. -/
structure CandidateRow where
  id : Int
  email : Option String
  job_ref_number : Option String
  created_on : Int
  cv_id : Option Int
  first_name : Option String
  last_name : Option String
  cv_gcs_path : Option String
  cv_download_status : Option String
deriving DecidableEq

/-- `cv_download_status LIKE 'Failed%'` — false on NULL. -/
def statusLikeFailed : Option String → Bool
  | none => false
  | some s => ("Failed".data).isPrefixOf s.data

/-- The WHERE clause of the selection query (lines 270-274):
`cv_id IS NOT NULL AND (cv_gcs_path IS NULL OR cv_download_status LIKE
'Failed%') AND created_on BETWEEN the computed bounds`. The ORDER BY only
reorders the result and is not modelled. -/
def selectCandidates (table : List CandidateRow) (startD endD : Int) : List CandidateRow :=
  table.filter (fun r =>
    r.cv_id.isSome && (r.cv_gcs_path.isNone || statusLikeFailed r.cv_download_status) &&
      decide (startD ≤ r.created_on) && decide (r.created_on ≤ endD))

/-- Oracle for one loop iteration (lines 301-359): the outcome of
`download_cv_from_api` (which catches every exception and returns `None`,
so it is an option, not an exception), the outcome of the filename
construction plus `upload_cv_to_gcs` (which returns the `gs://...` path or
raises), and whether the UPDATE execute raises (caught and only logged,
lines 354-356). -/
structure PullRowOracle where
  apiDownload : Option Unit
  gcsUpload : Except Exc String
  dbUpdateOk : Bool

/-- The parameters of the UPDATE statement issued at lines 337-352 for one
candidate. -/
structure DbUpdate where
  candidate_id : Int
  cv_gcs_path : Option String
  cv_download_status : Option String
deriving DecidableEq

/-- One iteration of the candidate loop (lines 301-359): the branch on
`cv_id is None`, the API download, the GCS upload, and the single
unconditional UPDATE with the resulting status. -/
def processCandidate (r : CandidateRow) (o : PullRowOracle) : DbUpdate :=
  match r.cv_id with
  | none => ⟨r.id, none, some "No CV ID"⟩
  | some _ =>
    match o.apiDownload with
    | none => ⟨r.id, none, some "Failed: API Download"⟩
    | some _ =>
      match o.gcsUpload with
      | .ok p => ⟨r.id, some p, some "Downloaded"⟩
      | .error _ => ⟨r.id, none, some "Failed: GCS Upload Error"⟩

/-- All UPDATE statements the loop issues starting at loop position `i`:
exactly one per selected row, in order (no operation in the loop body can
raise out of it). -/
def pullUpdatesAux : List CandidateRow → Nat → (Nat → PullRowOracle) → List DbUpdate
  | [], _, _ => []
  | r :: rest, i, oracles =>
      processCandidate r (oracles i) :: pullUpdatesAux rest (i + 1) oracles

/-- All UPDATE statements of one run of the candidate loop. -/
def pullUpdates (rows : List CandidateRow) (oracles : Nat → PullRowOracle) : List DbUpdate :=
  pullUpdatesAux rows 0 oracles

/-- Oracle for one run of `main` (lines 227-373): whether each step up to
the loop succeeds. The loop itself never raises. -/
structure PullEnv where
  configOk : Bool
  engineOk : Bool
  tokenOk : Bool
  datesOk : Bool
  queryOk : Bool
  noCandidates : Bool
deriving DecidableEq

/-- `main` of pull_and_link_cvs.py, step by step. `sys.exit(0)` /
`sys.exit(1)` raise SystemExit past the `except Exception`; the `finally`
(lines 367-373) disposes the engine when one was created and always
closes the module-global connector, in that order. -/
def pullMain (e : PullEnv) : MainRun :=
  if !e.configOk then ⟨1, false, false, [.connectorClosed]⟩
  else if !e.engineOk then ⟨1, false, false, [.connectorClosed]⟩
  else if !e.tokenOk then ⟨1, true, false, [.engineDisposed, .connectorClosed]⟩
  else if !e.datesOk then ⟨1, true, false, [.engineDisposed, .connectorClosed]⟩
  else if !e.queryOk then ⟨1, true, false, [.engineDisposed, .connectorClosed]⟩
  else if e.noCandidates then ⟨0, true, false, [.engineDisposed, .connectorClosed]⟩
  else ⟨0, true, false, [.engineDisposed, .connectorClosed]⟩

/-- The steps whose success completes the job (an empty candidate set is
the documented no-work completion and also exits 0). -/
def pullTasksComplete (e : PullEnv) : Bool :=
  e.configOk && e.engineOk && e.tokenOk && e.datesOk && e.queryOk

end PullAndLinkCvs

namespace HiCvDownloader

/-- Pending outcome of a Python block: a returned value or an in-flight
exception. -/
inductive PyOutcome (α : Type) where
  | ret (a : α)
  | exn (e : Exc)
deriving DecidableEq

/-- Modelled from the Python semantics of `finally`: when the `finally`
block itself ends in `return`, that return replaces whatever was pending —
a pending return as well as a pending exception is discarded. -/
def finallyOverride {α : Type} (_pending fin : PyOutcome α) : PyOutcome α := fin

/-- Oracle for one call of `perform_login` (lines 125-219): whether the
login flow of the try body (navigation, field lookup, submit, the URL
wait at line 202) runs to completion, the results of the screenshot
uploads (which never raise, lines 91-109), and whether the except handler
itself raises while logging (`driver.page_source`, line 212). -/
structure LoginOracle where
  flow : Except Exc Unit
  tryShot : Bool
  handlerRaises : Bool
  handlerShot : Bool
  finallyShot : Bool
deriving DecidableEq

/-- `perform_login` (lines 125-219), transcribed. `login_success` is set
to `True` only after the wait at line 202 succeeds; the try body then
returns `True`, the except handler logs, screenshots and returns `False`;
the `finally` (lines 216-219) re-uploads a `login_success` screenshot when
`login_success` is set and returns `True` exactly when that upload
succeeds, else returns `False` — and this return replaces the pending
outcome of the try/except part. -/
def performLogin (o : LoginOracle) : PyOutcome Bool :=
  let loginSuccess : Bool := o.flow.isOk
  let pending : PyOutcome Bool :=
    match o.flow with
    | .ok _ => PyOutcome.ret true
    | .error _ =>
        if o.handlerRaises then PyOutcome.exn "exception raised inside the except handler"
        else PyOutcome.ret false
  finallyOverride pending
    (if loginSuccess && o.finallyShot then PyOutcome.ret true else PyOutcome.ret false)

/-- Oracle for one run of `main` (lines 343-405): config validation,
driver setup, the login oracle (whose result is only logged), the
dashboard navigation at lines 356-360, and the inner candidate-processing
block (whose exceptions are caught at line 384). -/
structure HiEnv where
  configOk : Bool
  driverOk : Bool
  login : LoginOracle
  navOk : Bool
  innerOk : Bool
deriving DecidableEq

/-- `main` of hi_cv_downloader.py, step by step: any exception up to the
dashboard wait returns 1; the inner block's failures are caught and
logged; otherwise 0. The `finally` quits the driver whenever `driver` was
assigned (quit failures fall back to `pkill`, still a quit attempt). -/
def hiMain (e : HiEnv) : MainRun :=
  if !e.configOk then ⟨1, false, false, []⟩
  else if !e.driverOk then ⟨1, false, false, []⟩
  else if !e.navOk then ⟨1, false, true, [.driverQuit]⟩
  else ⟨0, false, true, [.driverQuit]⟩

/-- The steps whose success completes the job: the login result and the
inner CV block never fail the run. -/
def hiTasksComplete (e : HiEnv) : Bool :=
  e.configOk && e.driverOk && e.navOk

end HiCvDownloader

namespace ScrapeCvLinks

/-- Oracle for one run of scrape_cv_links.py: whether the credential
environment variables are set (line 32), and whether the browser flow of
`run` (driver start, login, dashboard wait, screenshots and uploads)
completes without raising. -/
structure ScrapeEnv where
  credsPresent : Bool
  flowOk : Bool
deriving DecidableEq

/-- Exit status of the script (lines 28-122): missing credentials call
`sys.exit(1)` (a SystemExit the `except Exception` of the entry block does
not catch); any exception raised out of `run` is caught at line 120 and
exits 1; otherwise the interpreter falls off the end and exits 0. -/
def scrapeExit (e : ScrapeEnv) : Nat :=
  if !e.credsPresent then 1
  else if !e.flowOk then 1
  else 0

def scrapeTasksComplete (e : ScrapeEnv) : Bool := e.credsPresent && e.flowOk

end ScrapeCvLinks

namespace MultiCandidateScreenshot

/-- Oracle for one run of multi_candidate_screenshot.py `main`
(lines 203-229): config load, webdriver init (which calls `sys.exit(1)`
itself on failure, line 120), login, and the screenshot capture/upload. -/
structure MultiEnv where
  configOk : Bool
  driverOk : Bool
  loginOk : Bool
  captureOk : Bool
deriving DecidableEq

def multiExit (e : MultiEnv) : Nat :=
  if !e.configOk then 1
  else if !e.driverOk then 1
  else if !e.loginOk then 1
  else if !e.captureOk then 1
  else 0

def multiTasksComplete (e : MultiEnv) : Bool :=
  e.configOk && e.driverOk && e.loginOk && e.captureOk

end MultiCandidateScreenshot

namespace ScreenshotJob

/-- Oracle for one run of hi_candidate_screenshot_job.py `main`
(lines 276-345): config validation, the Chrome/Chromedriver version check
(a failed check returns 1, line 286), driver setup, login, and the two
screenshot sections (whose own upload failures re-raise out of their
handlers into the outer `except`, returning 1). -/
structure JobEnv where
  configOk : Bool
  chromeOk : Bool
  driverOk : Bool
  loginOk : Bool
  shotsOk : Bool
deriving DecidableEq

def jobExit (e : JobEnv) : Nat :=
  if !e.configOk then 1
  else if !e.chromeOk then 1
  else if !e.driverOk then 1
  else if !e.loginOk then 1
  else if !e.shotsOk then 1
  else 0

def jobTasksComplete (e : JobEnv) : Bool :=
  e.configOk && e.chromeOk && e.driverOk && e.loginOk && e.shotsOk

end ScreenshotJob

/-! ## Concrete instances used in counterexamples and witnesses -/

/-- Two rows with distinct ids but the same
(lower(email), lower(job_ref_number), created_on) triple. -/
def dupRowA : DailyImporter.DbRow :=
  ⟨1, 0, "job-ref-7", "Jane.Doe@example.com", "HireIntelligence"⟩

def dupRowB : DailyImporter.DbRow :=
  ⟨2, 0, "JOB-REF-7", "jane.doe@example.com", "HireIntelligence"⟩

/-- A raw API record with a parseable `createdOn` and padded, mixed-case
`email` and `jobRefNumber`. -/
def sampleRaw : DailyImporter.RawRecord :=
  ⟨some 1700000000123456, some "  REF-9 ", some " Jane.Doe@Example.COM ", []⟩

/-- A CandidateCombination response body whose `statusCode` is `"2000"`
and whose `data` object carries the `fileName` and `cvFileName` keys with
JSON null values. -/
def noFileNameMeta : HiCvDownloader.CvMetadata :=
  ⟨some (HiCvDownloader.JVal.jstr "2000"),
   some [("fileName", HiCvDownloader.JVal.jnull), ("cvFileName", HiCvDownloader.JVal.jnull)]⟩

/-- A stored row selectable by the pull_and_link query: it has a `cv_id`
and no GCS path yet. -/
def sampleCandidate : PullAndLinkCvs.CandidateRow :=
  ⟨11, some "a@b.c", some "ref-1", 5, some 42, some "Ann", some "Lee", none, none⟩

/-! ## Helper lemmas -/

theorem processCvRowsAux_length (apiKey q : String)
    (rows : List (Option Int × Option Int)) :
    ∀ (i : Nat) (oracles : Nat → DailyImporter.CvRowOracle),
      (DailyImporter.processCvRowsAux apiKey q rows i oracles).length = rows.length := by
  induction rows with
  | nil => intro i oracles; rfl
  | cons row rest ih =>
      intro i oracles
      simp [DailyImporter.processCvRowsAux, ih]

theorem pullUpdatesAux_length (rows : List PullAndLinkCvs.CandidateRow) :
    ∀ (i : Nat) (oracles : Nat → PullAndLinkCvs.PullRowOracle),
      (PullAndLinkCvs.pullUpdatesAux rows i oracles).length = rows.length := by
  induction rows with
  | nil => intro i oracles; rfl
  | cons r rest ih =>
      intro i oracles
      simp [PullAndLinkCvs.pullUpdatesAux, ih]

theorem mem_pullUpdatesAux (rows : List PullAndLinkCvs.CandidateRow) :
    ∀ (i : Nat) (oracles : Nat → PullAndLinkCvs.PullRowOracle)
      (u : PullAndLinkCvs.DbUpdate), u ∈ PullAndLinkCvs.pullUpdatesAux rows i oracles →
      ∃ r ∈ rows, ∃ j, u = PullAndLinkCvs.processCandidate r (oracles j) := by
  induction rows with
  | nil => intro i oracles u h; cases h
  | cons r rest ih =>
      intro i oracles u h
      rcases List.mem_cons.mp h with h | h
      · exact ⟨r, List.mem_cons_self r rest, i, h⟩
      · obtain ⟨r0, hr0, j, hj⟩ := ih (i + 1) oracles u h
        exact ⟨r0, List.mem_cons_of_mem r hr0, j, hj⟩

/-! ## Claim theorems -/

/-- C2: `daily_CV_and_candidate_importer.py` is not syntactically valid
Python — the `try` statement of `create_candidates_table` carries neither
an `except` nor a `finally` clause — so every invocation of the script
fails at module compile time: whatever the module body would have done,
the run exits with status 1 having performed no configuration load, API
request or database write. -/
theorem daily_importer_syntax_error :
    stmtsWellFormed DailyImporter.importerModule = false ∧
    stmtWellFormed (PyStmt.funcDef "create_candidates_table"
      DailyImporter.create_candidates_table_body) = false ∧
    ∀ exec : DailyImporter.ScriptRun,
      DailyImporter.runPythonModule DailyImporter.importerModule exec =
        ⟨1, []⟩ := by
  have h : stmtsWellFormed DailyImporter.importerModule = false := rfl
  refine ⟨h, rfl, fun exec => ?_⟩
  simp [DailyImporter.runPythonModule, h]

/-- C3, evaluated at the failing input: the only uniqueness constraint the
`CREATE TABLE` of `create_candidates_table` declares is the primary key on
`id`; the conflict target of the upsert is not among the declared unique
keys, and two distinct rows (ids 1 and 2) sharing the same
(lower(email), lower(job_ref_number), created_on) triple satisfy every
constraint the DDL declares. -/
theorem candidates_table_admits_duplicate_upsert_key :
    DailyImporter.candidatesTableUniqueKeys = [[DailyImporter.IndexExpr.col "id"]] ∧
    DailyImporter.upsertConflictTarget ∉ DailyImporter.candidatesTableUniqueKeys ∧
    DailyImporter.rowsSatisfySchema [dupRowA, dupRowB] = true ∧
    dupRowA.upsertKey = dupRowB.upsertKey ∧
    dupRowA ≠ dupRowB := by
  refine ⟨by decide, by decide, by decide, by decide, by decide⟩

/-- C1: `insert_candidate_data` issues exactly one parameterized
`INSERT ... ON CONFLICT DO UPDATE` against `candidates_daily_report` per
record that survives cleaning, the conflict key of every statement is
(lower(email), lower(job_ref_number), created_on), and every statement's
`email` and `job_ref_number` values are the stripped-lowercase
normalization of some input record's cells. -/
theorem insert_candidate_data_one_upsert_per_record
    (raws : List DailyImporter.RawRecord) :
    (DailyImporter.insertStatements raws).length =
      (DailyImporter.cleanRecords raws).length ∧
    ∀ s ∈ DailyImporter.insertStatements raws,
      s.table = "candidates_daily_report" ∧
      s.indexElements = [DailyImporter.IndexExpr.lowerCol "email",
        DailyImporter.IndexExpr.lowerCol "job_ref_number",
        DailyImporter.IndexExpr.col "created_on"] ∧
      ∃ r0 ∈ raws,
        s.values.email = DailyImporter.normCell r0.email ∧
        s.values.job_ref_number = DailyImporter.normCell r0.jobRefNumber := by
  refine ⟨by simp [DailyImporter.insertStatements], ?_⟩
  intro s hs
  simp only [DailyImporter.insertStatements, List.mem_map] at hs
  obtain ⟨r, hr, rfl⟩ := hs
  refine ⟨rfl, rfl, ?_⟩
  simp only [DailyImporter.cleanRecords, List.mem_filter, List.mem_map] at hr
  obtain ⟨⟨r0, hr0, rfl⟩, -⟩ := hr
  exact ⟨r0, hr0, rfl, rfl⟩

/-- Witness for C1 at a concrete input: one raw record with padded,
mixed-case cells yields one upsert whose key cells are stripped and
lowercased. -/
theorem insert_candidate_data_one_upsert_per_record_witness :
    (DailyImporter.upsertFor (DailyImporter.normalizeRecord sampleRaw) ∈
      DailyImporter.insertStatements [sampleRaw]) ∧
    (DailyImporter.upsertFor (DailyImporter.normalizeRecord sampleRaw)).table =
      "candidates_daily_report" ∧
    (DailyImporter.upsertFor (DailyImporter.normalizeRecord sampleRaw)).values.email =
      "jane.doe@example.com" ∧
    ∃ r0 ∈ [sampleRaw],
      (DailyImporter.upsertFor (DailyImporter.normalizeRecord sampleRaw)).values.email =
        DailyImporter.normCell r0.email := by
  have hmem : DailyImporter.upsertFor (DailyImporter.normalizeRecord sampleRaw) ∈
      DailyImporter.insertStatements [sampleRaw] := by decide
  have h := (insert_candidate_data_one_upsert_per_record [sampleRaw]).2 _ hmem
  refine ⟨hmem, h.1, by decide, ?_⟩
  obtain ⟨r0, hr0, he, -⟩ := h.2.2
  exact ⟨r0, hr0, he⟩

/-- C4 counterexample: in `hi_cv_downloader.download_cv`, when the
metadata request succeeds with `statusCode "2000"` but the `data` object
carries `fileName: null` and `cvFileName: null`, the file-download request
is still issued (two requests in total, the second with the literal query
text `fileName=None`), although the metadata request did not return a file
name — its `fileName` entry is JSON null. -/
theorem hi_download_cv_second_request_without_file_name :
    (HiCvDownloader.hiDownloadCv "key" "q" (Except.ok noFileNameMeta) false).1 =
      [HiCvDownloader.hiMetadataRequest "q",
       HiCvDownloader.hiFileDownloadRequest "key" "None"] ∧
    noFileNameMeta.data = some [("fileName", HiCvDownloader.JVal.jnull),
      ("cvFileName", HiCvDownloader.JVal.jnull)] ∧
    HiCvDownloader.dictGetEx [("fileName", HiCvDownloader.JVal.jnull),
      ("cvFileName", HiCvDownloader.JVal.jnull)] "fileName" =
      Except.ok HiCvDownloader.JVal.jnull := by
  refine ⟨by decide, by decide, by decide⟩

/-- C4 as amended: downloading one candidate's CV issues at most two GET
requests, the first always the CandidateCombination metadata request. In
`daily_CV_and_candidate_importer` the second request (carrying the API key
and the returned `fileName`) is issued exactly when the metadata request
succeeds and both `fileName` and `cvFileName` are non-empty strings; in
`hi_cv_downloader.download_cv` it is issued exactly when the metadata
request succeeds with `statusCode "2000"` and the `data` object carries
`fileName` and `cvFileName` keys — even when their values are JSON null. -/
theorem cv_download_two_sequential_requests (apiKey q : String)
    (cv user : Option Int) (o : DailyImporter.CvRowOracle)
    (resp1 : Except Exc HiCvDownloader.CvMetadata) (resp2Fails : Bool) :
    (∀ a b, cv = some a → user = some b →
      ((DailyImporter.processCvRow apiKey q cv user o).requests.head? =
          some (DailyImporter.getCvFilenameRequest q) ∧
       (DailyImporter.processCvRow apiKey q cv user o).requests.length ≤ 2 ∧
       ((DailyImporter.processCvRow apiKey q cv user o).requests.length = 2 ↔
          ∃ d, o.meta = Except.ok d ∧ strTruthy d.fileName = true ∧
            strTruthy d.cvFileName = true) ∧
       (∀ d, o.meta = Except.ok d → strTruthy d.fileName = true →
          strTruthy d.cvFileName = true →
          (DailyImporter.processCvRow apiKey q cv user o).requests =
            [DailyImporter.getCvFilenameRequest q,
             DailyImporter.fileDownloadRequest apiKey (d.fileName.getD "")]))) ∧
    ((HiCvDownloader.hiDownloadCv apiKey q resp1 resp2Fails).1.head? =
        some (HiCvDownloader.hiMetadataRequest q) ∧
     (HiCvDownloader.hiDownloadCv apiKey q resp1 resp2Fails).1.length ≤ 2 ∧
     ((HiCvDownloader.hiDownloadCv apiKey q resp1 resp2Fails).1.length = 2 ↔
        ∃ m d fn cfn, resp1 = Except.ok m ∧
          m.statusCode = some (HiCvDownloader.JVal.jstr "2000") ∧
          m.data = some d ∧
          HiCvDownloader.dictGetEx d "fileName" = Except.ok fn ∧
          HiCvDownloader.dictGetEx d "cvFileName" = Except.ok cfn) ∧
     (∀ m d fn cfn, resp1 = Except.ok m →
        m.statusCode = some (HiCvDownloader.JVal.jstr "2000") →
        m.data = some d →
        HiCvDownloader.dictGetEx d "fileName" = Except.ok fn →
        HiCvDownloader.dictGetEx d "cvFileName" = Except.ok cfn →
        (HiCvDownloader.hiDownloadCv apiKey q resp1 resp2Fails).1 =
          [HiCvDownloader.hiMetadataRequest q,
           HiCvDownloader.hiFileDownloadRequest apiKey fn.fstr])) := by
  constructor
  · intro a b ha hb
    subst ha; subst hb
    rcases o with ⟨meta, download, gcsPath⟩
    rcases meta with e | d
    · refine ⟨rfl, by simp [DailyImporter.processCvRow], ?_, ?_⟩
      · simp [DailyImporter.processCvRow]
      · intro d hd; cases hd
    · cases hfn : strTruthy d.fileName <;> cases hcfn : strTruthy d.cvFileName
      · refine ⟨?_, ?_, ?_, ?_⟩ <;>
          simp [DailyImporter.processCvRow, hfn, hcfn]
      · refine ⟨?_, ?_, ?_, ?_⟩ <;>
          simp [DailyImporter.processCvRow, hfn, hcfn]
      · refine ⟨?_, ?_, ?_, ?_⟩ <;>
          simp [DailyImporter.processCvRow, hfn, hcfn]
      · rcases download with e | u
        · refine ⟨?_, ?_, ?_, ?_⟩ <;>
            simp [DailyImporter.processCvRow, hfn, hcfn]
        · rcases gcsPath with _ | p <;>
            refine ⟨?_, ?_, ?_, ?_⟩ <;>
              simp [DailyImporter.processCvRow, hfn, hcfn]
  · rcases resp1 with e | m
    · refine ⟨rfl, by simp [HiCvDownloader.hiDownloadCv], ?_, ?_⟩
      · simp [HiCvDownloader.hiDownloadCv]
      · intro m d fn cfn hm; cases hm
    · by_cases hsc : m.statusCode = some (HiCvDownloader.JVal.jstr "2000")
      · rcases hd : m.data with _ | d
        · refine ⟨?_, ?_, ?_, ?_⟩
          · simp [HiCvDownloader.hiDownloadCv, hsc, hd]
          · simp [HiCvDownloader.hiDownloadCv, hsc, hd]
          · simp [HiCvDownloader.hiDownloadCv, hsc, hd]
          · intro m1 d1 fn cfn hm1 hsc1 hdata hf hcf
            cases hm1
            rw [hd] at hdata; cases hdata
        · rcases hfn : HiCvDownloader.dictGetEx d "fileName" with e | fn
          · refine ⟨?_, ?_, ?_, ?_⟩
            · simp [HiCvDownloader.hiDownloadCv, hsc, hd, hfn]
            · simp [HiCvDownloader.hiDownloadCv, hsc, hd, hfn]
            · simp [HiCvDownloader.hiDownloadCv, hsc, hd, hfn]
            · intro m1 d1 fn1 cfn1 hm1 hsc1 hdata hf hcf
              cases hm1
              rw [hd] at hdata; cases hdata
              rw [hfn] at hf; cases hf
          · rcases hcfn : HiCvDownloader.dictGetEx d "cvFileName" with e | cfn
            · refine ⟨?_, ?_, ?_, ?_⟩
              · simp [HiCvDownloader.hiDownloadCv, hsc, hd, hfn, hcfn]
              · simp [HiCvDownloader.hiDownloadCv, hsc, hd, hfn, hcfn]
              · simp [HiCvDownloader.hiDownloadCv, hsc, hd, hfn, hcfn]
              · intro m1 d1 fn1 cfn1 hm1 hsc1 hdata hf hcf
                cases hm1
                rw [hd] at hdata; cases hdata
                rw [hcfn] at hcf; cases hcf
            · refine ⟨?_, ?_, ?_, ?_⟩
              · cases resp2Fails <;>
                  simp [HiCvDownloader.hiDownloadCv, hsc, hd, hfn, hcfn]
              · cases resp2Fails <;>
                  simp [HiCvDownloader.hiDownloadCv, hsc, hd, hfn, hcfn]
              · cases resp2Fails <;>
                  simp [HiCvDownloader.hiDownloadCv, hsc, hd, hfn, hcfn]
              · intro m1 d1 fn1 cfn1 hm1 hsc1 hdata hf hcf
                cases hm1
                rw [hd] at hdata; cases hdata
                rw [hfn] at hf; cases hf
                cases resp2Fails <;>
                  simp [HiCvDownloader.hiDownloadCv, hsc, hd, hfn, hcfn]
      · refine ⟨?_, ?_, ?_, ?_⟩
        · simp [HiCvDownloader.hiDownloadCv, hsc]
        · simp [HiCvDownloader.hiDownloadCv, hsc]
        · simp [HiCvDownloader.hiDownloadCv, hsc]
        · intro m1 d1 fn1 cfn1 hm1 hsc1 hdata hf hcf
          cases hm1
          exact absurd hsc1 hsc

/-- Witness for C4 at a concrete input: with a metadata response carrying
non-empty `fileName` and `cvFileName`, the importer's loop issues exactly
the metadata request followed by the file-download request with the API
key and that file name. -/
theorem cv_download_two_sequential_requests_witness :
    (DailyImporter.processCvRow "k" "q" (some 1) (some 2)
      ⟨Except.ok ⟨some "f.pdf", some "cv.pdf"⟩, Except.ok (),
        some "gs://intelligent-recruitment-cvs/cvs/cv.pdf"⟩).requests =
      [DailyImporter.getCvFilenameRequest "q",
       DailyImporter.fileDownloadRequest "k" "f.pdf"] :=
  ((cv_download_two_sequential_requests "k" "q" (some 1) (some 2)
      ⟨Except.ok ⟨some "f.pdf", some "cv.pdf"⟩, Except.ok (),
        some "gs://intelligent-recruitment-cvs/cvs/cv.pdf"⟩
      (Except.error "unused") false).1 1 2 rfl rfl).2.2.2
    ⟨some "f.pdf", some "cv.pdf"⟩ rfl (by decide) (by decide)

/-- C5 counterexample: `download_cv_from_api` in pull_and_link_cvs.py
issues a GET against the partner API host whose path is
`/api/Candidate/DownloadCV` — a path not among the three the spec lists —
and for `cv_id = 123` the full URL is exactly the f-string of line 199. -/
theorem partner_api_request_to_fourth_path :
    (⟨"GET", PullAndLinkCvs.pullDownloadCvUrl 0⟩ : HttpReq) ∈ partnerApiRequests ∧
    (PullAndLinkCvs.pullDownloadCvUrl 0).host = "partnersapi.applygateway.com" ∧
    (PullAndLinkCvs.pullDownloadCvUrl 0).path ∉ specPartnerPaths ∧
    (PullAndLinkCvs.pullDownloadCvUrl 123).render =
      "https://partnersapi.applygateway.com/api/Candidate/DownloadCV?cvid=123" := by
  refine ⟨by decide, by decide, by decide, by decide⟩

/-- C5 as amended: every request the scripts issue against
`partnersapi.applygateway.com` targets one of the four paths
`/Login/login`, `/Candidate/MultiCandidateAdmin`,
`/Candidate/CandidateCombination` or `/Candidate/DownloadCV` (under the
common `/api` prefix); the rendered URLs agree with the source string
literals, and the CV file requests go to the separate host
`cvfilemanager.applygateway.com`. -/
theorem partner_api_requests_target_four_paths :
    DailyImporter.authUrl.render =
      "https://partnersapi.applygateway.com/api/Login/login" ∧
    (DailyImporter.reportUrl "").render =
      "https://partnersapi.applygateway.com/api/Candidate/MultiCandidateAdmin" ∧
    (DailyImporter.candidateCombinationUrl "").render =
      "https://partnersapi.applygateway.com/api/Candidate/CandidateCombination?" ∧
    PullAndLinkCvs.pullAuthUrl.render =
      "https://partnersapi.applygateway.com/api/Login/login" ∧
    (HiCvDownloader.hiMetadataUrl "").render =
      "https://partnersapi.applygateway.com/api/Candidate/CandidateCombination?" ∧
    (∀ r ∈ partnerApiRequests, r.url.host = "partnersapi.applygateway.com" ∧
      r.url.path ∈ specPartnerPaths ++ ["/api/Candidate/DownloadCV"]) ∧
    (DailyImporter.fileDownloadUrl "k" "f").host = "cvfilemanager.applygateway.com" ∧
    (HiCvDownloader.hiFileDownloadUrl "k" "f").host = "cvfilemanager.applygateway.com" := by
  refine ⟨by decide, by decide, by decide, by decide, by decide, by decide, by decide, by decide⟩

/-- Witness for C5 at a concrete member of the request list. -/
theorem partner_api_requests_target_four_paths_witness :
    (⟨"POST", DailyImporter.authUrl⟩ : HttpReq) ∈ partnerApiRequests ∧
    DailyImporter.authUrl.host = "partnersapi.applygateway.com" ∧
    DailyImporter.authUrl.path ∈ specPartnerPaths ++ ["/api/Candidate/DownloadCV"] :=
  have hmem : (⟨"POST", DailyImporter.authUrl⟩ : HttpReq) ∈ partnerApiRequests := by decide
  ⟨hmem, partner_api_requests_target_four_paths.2.2.2.2.2.1 _ hmem⟩

/-- C6: in the CV loop of `insert_candidate_data` every failure ends as a
free-text string in the row's `cv_download_status` cell and never escapes
the loop (every row is processed); in particular a row with a `cv_id` and
a `user_id` whose metadata response lacks a truthy `fileName` or
`cvFileName` gets exactly the status string `"Failed - No file name"`,
a raised exception `e` gets `"Failed - " ++ str(e)`, and a failed GCS
upload gets `"Failed"`. -/
theorem insert_candidate_data_cv_failures_recorded (apiKey q : String)
    (rows : List (Option Int × Option Int)) (oracles : Nat → DailyImporter.CvRowOracle)
    (cv user : Option Int) (o : DailyImporter.CvRowOracle) :
    (DailyImporter.processCvRows apiKey q rows oracles).length = rows.length ∧
    (cv = none ∨ user = none →
      DailyImporter.processCvRow apiKey q cv user o =
        ⟨[], none, "Failed - Missing CV ID or User ID"⟩) ∧
    (∀ a b, cv = some a → user = some b →
      ((∀ e, o.meta = Except.error e →
          DailyImporter.processCvRow apiKey q cv user o =
            ⟨[DailyImporter.getCvFilenameRequest q], none, "Failed - " ++ e⟩) ∧
       (∀ d, o.meta = Except.ok d →
          (strTruthy d.fileName && strTruthy d.cvFileName) = false →
          DailyImporter.processCvRow apiKey q cv user o =
            ⟨[DailyImporter.getCvFilenameRequest q], none, "Failed - No file name"⟩) ∧
       (∀ d e, o.meta = Except.ok d →
          (strTruthy d.fileName && strTruthy d.cvFileName) = true →
          o.download = Except.error e →
          DailyImporter.processCvRow apiKey q cv user o =
            ⟨[DailyImporter.getCvFilenameRequest q,
              DailyImporter.fileDownloadRequest apiKey (d.fileName.getD "")],
             none, "Failed - " ++ e⟩) ∧
       (∀ d, o.meta = Except.ok d →
          (strTruthy d.fileName && strTruthy d.cvFileName) = true →
          o.download = Except.ok () → o.gcsPath = none →
          DailyImporter.processCvRow apiKey q cv user o =
            ⟨[DailyImporter.getCvFilenameRequest q,
              DailyImporter.fileDownloadRequest apiKey (d.fileName.getD "")],
             none, "Failed"⟩))) := by
  refine ⟨processCvRowsAux_length apiKey q rows 0 oracles, ?_, ?_⟩
  · intro h
    rcases h with h | h <;> subst h
    · cases user <;> rfl
    · cases cv <;> rfl
  · intro a b ha hb
    subst ha; subst hb
    refine ⟨?_, ?_, ?_, ?_⟩
    · intro e he
      simp [DailyImporter.processCvRow, he]
    · intro d hd hg
      simp [DailyImporter.processCvRow, hd, hg]
    · intro d e hd hg hdl
      simp [DailyImporter.processCvRow, hd, hg, hdl]
    · intro d hd hg hdl hgcs
      simp [DailyImporter.processCvRow, hd, hg, hdl, hgcs]

/-- Witness for C6 at a concrete input: a row with ids 5 and 7 whose
metadata response has null `fileName` and `cvFileName` is recorded as
`"Failed - No file name"`. -/
theorem insert_candidate_data_cv_failures_recorded_witness :
    DailyImporter.processCvRow "k" "q" (some 5) (some 7)
      ⟨Except.ok ⟨none, none⟩, Except.ok (), none⟩ =
      ⟨[DailyImporter.getCvFilenameRequest "q"], none, "Failed - No file name"⟩ :=
  ((insert_candidate_data_cv_failures_recorded "k" "q" []
      (fun _ => ⟨Except.ok ⟨none, none⟩, Except.ok (), none⟩) (some 5) (some 7)
      ⟨Except.ok ⟨none, none⟩, Except.ok (), none⟩).2.2 5 7 rfl rfl).2.1
    ⟨none, none⟩ rfl (by decide)

/-- C7: every script terminates with exit status 0 or 1 — status 0 exactly
when its tasks complete (for pull_and_link including the no-candidates
case; for the importer, whose module never compiles, every run exits 1),
status 1 when a step fails with an unhandled error. -/
theorem scripts_exit_status_zero_or_one :
    (∀ exec : DailyImporter.ScriptRun,
       (DailyImporter.runPythonModule DailyImporter.importerModule exec).exitCode = 1) ∧
    (∀ e, (DailyImporter.importerMain e).exitCode =
       if DailyImporter.importerTasksComplete e then 0 else 1) ∧
    (∀ e, (PullAndLinkCvs.pullMain e).exitCode =
       if PullAndLinkCvs.pullTasksComplete e then 0 else 1) ∧
    (∀ b, (PullAndLinkCvs.pullMain ⟨true, true, true, true, true, b⟩).exitCode = 0) ∧
    (∀ e, (HiCvDownloader.hiMain e).exitCode =
       if HiCvDownloader.hiTasksComplete e then 0 else 1) ∧
    (∀ e, ScrapeCvLinks.scrapeExit e =
       if ScrapeCvLinks.scrapeTasksComplete e then 0 else 1) ∧
    (∀ e, MultiCandidateScreenshot.multiExit e =
       if MultiCandidateScreenshot.multiTasksComplete e then 0 else 1) ∧
    (∀ e, ScreenshotJob.jobExit e =
       if ScreenshotJob.jobTasksComplete e then 0 else 1) := by
  refine ⟨?_, ?_, ?_, ?_, ?_, ?_, ?_, ?_⟩
  · intro exec
    simp [DailyImporter.runPythonModule,
      show stmtsWellFormed DailyImporter.importerModule = false from rfl]
  · intro e; rcases e with ⟨a, b, c, d, f⟩
    cases a <;> cases b <;> cases c <;> cases d <;> cases f <;> rfl
  · intro e; rcases e with ⟨a, b, c, d, f, g⟩
    cases a <;> cases b <;> cases c <;> cases d <;> cases f <;> cases g <;> rfl
  · intro b; cases b <;> rfl
  · intro e; rcases e with ⟨a, b, l, n, i⟩
    cases a <;> cases b <;> cases n <;> rfl
  · intro e; rcases e with ⟨a, b⟩
    cases a <;> cases b <;> rfl
  · intro e; rcases e with ⟨a, b, c, d⟩
    cases a <;> cases b <;> cases c <;> cases d <;> rfl
  · intro e; rcases e with ⟨a, b, c, d, f⟩
    cases a <;> cases b <;> cases c <;> cases d <;> cases f <;> rfl

/-- C8: on every run of the three entrypoint mains the `finally` cleanup
executes — the importer and pull_and_link close the Cloud SQL connector on
every path and dispose the database engine exactly when one was created,
and hi_cv_downloader quits the browser driver exactly when one was
created. -/
theorem main_finally_cleanup (e1 : DailyImporter.ImporterEnv)
    (e2 : PullAndLinkCvs.PullEnv) (e3 : HiCvDownloader.HiEnv) :
    (CleanupEvent.connectorClosed ∈ (DailyImporter.importerMain e1).cleanup ∧
     ((DailyImporter.importerMain e1).engineCreated = true ↔
       CleanupEvent.engineDisposed ∈ (DailyImporter.importerMain e1).cleanup) ∧
     (DailyImporter.importerMain e1).engineCreated = (e1.configOk && e1.engineOk)) ∧
    (CleanupEvent.connectorClosed ∈ (PullAndLinkCvs.pullMain e2).cleanup ∧
     ((PullAndLinkCvs.pullMain e2).engineCreated = true ↔
       CleanupEvent.engineDisposed ∈ (PullAndLinkCvs.pullMain e2).cleanup) ∧
     (PullAndLinkCvs.pullMain e2).engineCreated = (e2.configOk && e2.engineOk)) ∧
    (((HiCvDownloader.hiMain e3).driverCreated = true ↔
       CleanupEvent.driverQuit ∈ (HiCvDownloader.hiMain e3).cleanup) ∧
     (HiCvDownloader.hiMain e3).driverCreated = (e3.configOk && e3.driverOk)) := by
  refine ⟨?_, ?_, ?_⟩
  · rcases e1 with ⟨a, b, c, d, f⟩
    cases a <;> cases b <;> cases c <;> cases d <;> cases f <;>
      exact ⟨by decide, by decide, by decide⟩
  · rcases e2 with ⟨a, b, c, d, f, g⟩
    cases a <;> cases b <;> cases c <;> cases d <;> cases f <;> cases g <;>
      exact ⟨by decide, by decide, by decide⟩
  · rcases e3 with ⟨a, b, l, n, i⟩
    cases a <;> cases b <;> cases n <;>
      simp [HiCvDownloader.hiMain]

/-- C9: every row returned by the pull_and_link selection query has a
non-null `cv_id` (the `"No CV ID"` branch is unreachable); the loop issues
exactly one UPDATE per selected row, each UPDATE sets
`cv_download_status` to `"Downloaded"`, `"Failed: API Download"` or
`"Failed: GCS Upload Error"`, never `"No CV ID"`, and sets `cv_gcs_path`
non-null exactly when the status is `"Downloaded"`. -/
theorem pull_and_link_one_update_per_candidate
    (table : List PullAndLinkCvs.CandidateRow) (startD endD : Int)
    (oracles : Nat → PullAndLinkCvs.PullRowOracle) :
    (∀ r ∈ PullAndLinkCvs.selectCandidates table startD endD, r.cv_id.isSome = true) ∧
    (PullAndLinkCvs.pullUpdates (PullAndLinkCvs.selectCandidates table startD endD)
        oracles).length =
      (PullAndLinkCvs.selectCandidates table startD endD).length ∧
    ∀ u ∈ PullAndLinkCvs.pullUpdates (PullAndLinkCvs.selectCandidates table startD endD)
        oracles,
      u.cv_download_status ≠ some "No CV ID" ∧
      (u.cv_download_status = some "Downloaded" ∨
       u.cv_download_status = some "Failed: API Download" ∨
       u.cv_download_status = some "Failed: GCS Upload Error") ∧
      (u.cv_gcs_path.isSome = true ↔ u.cv_download_status = some "Downloaded") := by
  have hsel : ∀ r ∈ PullAndLinkCvs.selectCandidates table startD endD,
      r.cv_id.isSome = true := by
    intro r hr
    have hp := (List.mem_filter.mp hr).2
    simp only [Bool.and_eq_true] at hp
    exact hp.1.1.1
  refine ⟨hsel, pullUpdatesAux_length _ 0 oracles, ?_⟩
  intro u hu
  obtain ⟨r, hr, j, hj⟩ :=
    mem_pullUpdatesAux (PullAndLinkCvs.selectCandidates table startD endD) 0 oracles u hu
  subst hj
  have hcv := hsel r hr
  rcases hv : r.cv_id with _ | v
  · simp [hv] at hcv
  · rcases hapi : (oracles j).apiDownload with _ | u0
    · have heq : PullAndLinkCvs.processCandidate r (oracles j) =
          ⟨r.id, none, some "Failed: API Download"⟩ := by
        simp [PullAndLinkCvs.processCandidate, hv, hapi]
      rw [heq]
      exact ⟨by simp, by simp, by simp⟩
    · rcases hgcs : (oracles j).gcsUpload with e | p
      · have heq : PullAndLinkCvs.processCandidate r (oracles j) =
            ⟨r.id, none, some "Failed: GCS Upload Error"⟩ := by
          simp [PullAndLinkCvs.processCandidate, hv, hapi, hgcs]
        rw [heq]
        exact ⟨by simp, by simp, by simp⟩
      · have heq : PullAndLinkCvs.processCandidate r (oracles j) =
            ⟨r.id, some p, some "Downloaded"⟩ := by
          simp [PullAndLinkCvs.processCandidate, hv, hapi, hgcs]
        rw [heq]
        exact ⟨by simp, by simp, by simp⟩

/-- Witness for C9 at a concrete input: a one-row table whose row has a
`cv_id` and no GCS path, with a succeeding download and upload, yields an
UPDATE with status `"Downloaded"` and a non-null path. -/
theorem pull_and_link_one_update_per_candidate_witness :
    (PullAndLinkCvs.pullUpdates
        (PullAndLinkCvs.selectCandidates [sampleCandidate] 0 10)
        (fun _ => ⟨some (), Except.ok "gs://recruitment-engine-cvs-sp-260625/candidate-cvs/x.pdf",
          true⟩)).length =
      (PullAndLinkCvs.selectCandidates [sampleCandidate] 0 10).length ∧
    ∀ u ∈ PullAndLinkCvs.pullUpdates
        (PullAndLinkCvs.selectCandidates [sampleCandidate] 0 10)
        (fun _ => ⟨some (), Except.ok "gs://recruitment-engine-cvs-sp-260625/candidate-cvs/x.pdf",
          true⟩),
      u.cv_download_status ≠ some "No CV ID" ∧
      (u.cv_download_status = some "Downloaded" ∨
       u.cv_download_status = some "Failed: API Download" ∨
       u.cv_download_status = some "Failed: GCS Upload Error") ∧
      (u.cv_gcs_path.isSome = true ↔ u.cv_download_status = some "Downloaded") :=
  have h := pull_and_link_one_update_per_candidate [sampleCandidate] 0 10
    (fun _ => ⟨some (), Except.ok "gs://recruitment-engine-cvs-sp-260625/candidate-cvs/x.pdf",
      true⟩)
  ⟨h.2.1, h.2.2⟩

/-- C10: `perform_login` never raises — the `return` in its `finally`
swallows even an exception raised inside the except handler — and it
returns `True` exactly when the login flow succeeded AND the final
`login_success` screenshot upload succeeded; in particular a successful
login whose confirmation screenshot fails to upload is reported as a
failed login. -/
theorem perform_login_requires_final_screenshot (o : HiCvDownloader.LoginOracle) :
    HiCvDownloader.performLogin o =
      HiCvDownloader.PyOutcome.ret (o.flow.isOk && o.finallyShot) ∧
    (∀ e, HiCvDownloader.performLogin o ≠ HiCvDownloader.PyOutcome.exn e) ∧
    (o.flow = Except.ok () → o.finallyShot = false →
      HiCvDownloader.performLogin o = HiCvDownloader.PyOutcome.ret false) := by
  rcases o with ⟨flow, ts, hr, hs, fs⟩
  refine ⟨?_, ?_, ?_⟩
  · rcases flow with e | u <;> cases fs <;> rfl
  · intro e h
    rcases flow with e0 | u <;> cases fs <;> cases h
  · intro hf hfs
    cases hf
    cases hfs
    rfl

/-- Witness for C10 at a concrete input: a login flow that succeeds but
whose final screenshot upload fails is reported as `False`. -/
theorem perform_login_requires_final_screenshot_witness :
    HiCvDownloader.performLogin ⟨Except.ok (), true, false, true, false⟩ =
      HiCvDownloader.PyOutcome.ret false :=
  (perform_login_requires_final_screenshot
    ⟨Except.ok (), true, false, true, false⟩).2.2 rfl rfl

end LoopPullHiCvs
